import Mathlib

/-!
Verification of the core game simulation of a Flappy-Bird-style arcade game
(source: a React/three.js component, FlappyBird3D.tsx).

The shallow embedding below translates the simulation core — the constants,
the avatar ("bird") physics, the obstacle ("pipe") list update, the collision
detector, the spawn logic and the lifecycle state machine — into pure Lean
functions over ℚ.  Rendering (three.js meshes, lighting, DOM), the `mesh`
field of a pipe, and resize handling are presentation-only and are omitted,
as is the computed-but-unused `deltaTime` value in the game loop.

React-specific semantics that matter for fidelity and are modelled exactly:
- `gameLoop` and `handleJump` are `useCallback` closures over the render-time
  values of `gameState` and `score`; inside one invocation those variables
  keep the values captured at render time, even after `setScore` or
  `setGameState` calls earlier in the same invocation.  In particular
  `setHighScore(prev => Math.max(prev, score))` reads the captured pre-tick
  `score`, and the `if (gameState === 'playing')` test in `handleJump` still
  sees `'waiting'` right after `setGameState('playing')`.
- `setX(prev => ...)` functional updates compose, so the score increments
  issued from inside the pipe loop do accumulate.
-/

/-- Constant `GAME_HEIGHT = 600` (world units; orthographic camera). -/
def GAME_HEIGHT : ℚ := 600

/-- Constant `GAME_WIDTH = 400`. -/
def GAME_WIDTH : ℚ := 400

/-- Constant `BIRD_SIZE = 20` (sphere diameter of the bird body). -/
def BIRD_SIZE : ℚ := 20

/-- Constant `PIPE_WIDTH = 50`. -/
def PIPE_WIDTH : ℚ := 50

/-- Constant `PIPE_GAP = 140` (vertical gap height). -/
def PIPE_GAP : ℚ := 140

/-- Constant `GRAVITY = 0.25` (per-frame velocity increment). -/
def GRAVITY : ℚ := 0.25

/-- Constant `JUMP_FORCE = -6`. -/
def JUMP_FORCE : ℚ := -6

/-- Constant `PIPE_SPEED = 1.5` (per-frame horizontal scroll). -/
def PIPE_SPEED : ℚ := 1.5

/-- Constant `MAX_VELOCITY = 6` (downward terminal velocity). -/
def MAX_VELOCITY : ℚ := 6

/-- The bird's fixed horizontal slot: `birdGroup.position.set(-GAME_WIDTH/4, 0, 0)`
and `const birdX = -GAME_WIDTH / 4` in `checkCollision`. -/
def birdX : ℚ := -GAME_WIDTH / 4

/-- Source line `const birdRadius = BIRD_SIZE / 2` in `checkCollision`. -/
def birdRadius : ℚ := BIRD_SIZE / 2

/-- The world's right edge: the orthographic camera spans
`-GAME_WIDTH/2 .. GAME_WIDTH/2` horizontally (`camera.left` / `camera.right`). -/
def rightWorldEdge : ℚ := GAME_WIDTH / 2

/-- Source `interface Pipe` with fields `x`, `gapY`, `passed`; the optional
`mesh` handle is a rendering artifact and is omitted. -/
structure Pipe where
  x : ℚ
  gapY : ℚ
  passed : Bool
  deriving DecidableEq, Repr

/-- Source `interface Bird` with fields `y`, `velocity`, `rotation`. -/
structure Bird where
  y : ℚ
  velocity : ℚ
  rotation : ℚ
  deriving DecidableEq, Repr

/-- Source `useState<'waiting' | 'playing' | 'gameOver'>('waiting')`. -/
inductive GameState where
  | waiting
  | playing
  | gameOver
  deriving DecidableEq, Repr

open GameState

/-- The per-pipe clause of `checkCollision`: the body of the `for` loop.
Returns `true` iff this pipe's horizontal span strictly overlaps the bird's
span and the bird circle does not fit in the gap. -/
def pipeHit (birdY : ℚ) (p : Pipe) : Bool :=
  if p.x - PIPE_WIDTH / 2 < birdX + birdRadius ∧ p.x + PIPE_WIDTH / 2 > birdX - birdRadius then
    if birdY + birdRadius < p.gapY - PIPE_GAP / 2 ∨ birdY - birdRadius > p.gapY + PIPE_GAP / 2 then
      true
    else false
  else false

/-- Source `checkCollision(birdY)`: first `if (birdY > 230 || birdY < -230)
return true;`, then the pipe loop with early return (`List.any` short-circuits
the same way). -/
def checkCollision (birdY : ℚ) (pipes : List Pipe) : Bool :=
  if birdY > 230 ∨ birdY < -230 then true
  else pipes.any (pipeHit birdY)

/-- The velocity/position/rotation update at the top of the game loop
(`newVelocity`, `newY`, `newRotation`); the spec calls it `Avatar.integrate`.
The clamped `deltaTime` computed in the source loop is never used: the update
is per-frame, exactly as below. -/
def integrate (b : Bird) : Bird :=
  let newVelocity := min (b.velocity + GRAVITY) MAX_VELOCITY
  { y := b.y + newVelocity
    velocity := newVelocity
    rotation := max (-0.5) (min 0.5 (newVelocity * 0.05)) }

/-- The body of the pipe `filter` loop for one pipe, in source order:
advance by `PIPE_SPEED`, drop the pipe if it is past the left edge, otherwise
flag a pass-through (scoring 1) when the trailing edge has crossed strictly
left of the bird's slot.  `none` means the pipe was retired; the ℕ is the
score increment issued for this pipe this tick. -/
def stepPipe (p : Pipe) : Option (Pipe × ℕ) :=
  let x' := p.x - PIPE_SPEED
  if x' < -GAME_WIDTH / 2 - PIPE_WIDTH then none
  else if p.passed = false ∧ x' + PIPE_WIDTH / 2 < -GAME_WIDTH / 4 then
    some (⟨x', p.gapY, true⟩, 1)
  else some (⟨x', p.gapY, p.passed⟩, 0)

/-- The whole pipe `filter` loop: per-pipe `stepPipe`, keeping survivors in
order and summing the score increments. -/
def stepPipes : List Pipe → List Pipe × ℕ
  | [] => ([], 0)
  | p :: ps =>
    let rest := stepPipes ps
    match stepPipe p with
    | none => rest
    | some (p', k) => (p' :: rest.1, k + rest.2)

/-- Total score increment a single pipe produces over `n` further ticks
(once retired it is gone and can produce no more). -/
def runPipe : Pipe → ℕ → ℕ
  | _, 0 => 0
  | p, n + 1 =>
    match stepPipe p with
    | none => 0
    | some (p', k) => k + runPipe p' n

/-- Spec's `ObstacleManager.advance`: every pipe moves left by `PIPE_SPEED`. -/
def advancePipes (ps : List Pipe) : List Pipe :=
  ps.map fun p => ⟨p.x - PIPE_SPEED, p.gapY, p.passed⟩

/-- Spec's `ObstacleManager.retireOffscreen`: drop pipes past the left world
edge minus the pipe width. -/
def retirePipes (ps : List Pipe) : List Pipe :=
  ps.filter fun p => !decide (p.x < -GAME_WIDTH / 2 - PIPE_WIDTH)

/-- Mark a single pipe passed (scoring 1) when unpassed and its trailing edge
is strictly left of the bird's slot. -/
def markPassedOne (p : Pipe) : Pipe × ℕ :=
  if p.passed = false ∧ p.x + PIPE_WIDTH / 2 < -GAME_WIDTH / 4 then
    (⟨p.x, p.gapY, true⟩, 1)
  else (p, 0)

/-- Spec's `ObstacleManager.markPassed`: mark all newly passed pipes and
count the transitions. -/
def markPassed : List Pipe → List Pipe × ℕ
  | [] => ([], 0)
  | p :: ps =>
    let hd := markPassedOne p
    let rest := markPassed ps
    (hd.1 :: rest.1, hd.2 + rest.2)

/-- Source spawn branch of the game loop (the spec's
`trySpawn(now, lastSpawnTime, interval)` with `interval = 3000`):
if `now - lastPipeTime > 3000`, create a pipe at `GAME_WIDTH / 2 + PIPE_WIDTH`
with `gapY = r * 200 - 100`, where `r` models the `Math.random()` draw
(so `0 ≤ r < 1`). -/
def trySpawn (now lastPipeTime r : ℚ) : Option Pipe :=
  if now - lastPipeTime > 3000 then
    some ⟨GAME_WIDTH / 2 + PIPE_WIDTH, r * 200 - 100, false⟩
  else none

/-- Pipe lists reachable by the component: initially empty, then updated by
game-loop ticks (`stepPipes`), spawns (append at the right spawn position,
unpassed), and the game-over reset to empty. -/
inductive ReachablePipes : List Pipe → Prop where
  | init : ReachablePipes []
  | step {ps} : ReachablePipes ps → ReachablePipes (stepPipes ps).1
  | spawn {ps} (gapY : ℚ) :
      ReachablePipes ps → ReachablePipes (ps ++ [⟨GAME_WIDTH / 2 + PIPE_WIDTH, gapY, false⟩])

/-- Invariant of reachable pipe lists: any pipe whose trailing edge is
strictly left of the bird's slot has already been marked passed. -/
def pipesInv (ps : List Pipe) : Prop :=
  ∀ p ∈ ps, p.x + PIPE_WIDTH / 2 < -GAME_WIDTH / 4 → p.passed = true

/-- The whole component state held in React state/refs that the simulation
core reads and writes. -/
structure Game where
  bird : Bird
  state : GameState
  score : ℕ
  highScore : ℕ
  pipes : List Pipe
  lastPipeTime : ℚ
  deriving DecidableEq, Repr

/-- Initial React state: bird at origin, `'waiting'`, scores 0, no pipes,
`lastPipeTime = useRef(0)`. -/
def initialGame : Game :=
  ⟨⟨0, 0, 0⟩, waiting, 0, 0, [], 0⟩

/-- One invocation of the source `gameLoop` callback, with `now` standing for
`Date.now()` and `r` for the `Math.random()` draw.  Order is the source's:
bird update, pipe filter loop (advance / retire / mark-passed per pipe),
spawn, then the collision check over the post-spawn pipe list.  The crucial
React detail: `setHighScore(prev => Math.max(prev, score))` uses the `score`
captured at render time, i.e. `g.score` before this tick's increments. -/
def gameLoop (g : Game) (now r : ℚ) : Game :=
  if g.state = playing then
    let newBird := integrate g.bird
    let stepped := stepPipes g.pipes
    let spawned := trySpawn now g.lastPipeTime r
    let pipes1 := match spawned with
      | some p => stepped.1 ++ [p]
      | none => stepped.1
    let last1 := match spawned with
      | some _ => now
      | none => g.lastPipeTime
    let collided := checkCollision newBird.y pipes1
    { bird := newBird
      state := if collided then gameOver else playing
      score := g.score + stepped.2
      highScore := if collided then max g.highScore g.score else g.highScore
      pipes := pipes1
      lastPipeTime := last1 }
  else g

/-- One invocation of the source `handleJump` callback.  `gameState` is the
captured render-time value, so after `setGameState('playing')` in the
`'waiting'` branch the subsequent `if (gameState === 'playing')` still sees
`'waiting'` and no jump is applied on the starting tap. -/
def handleJump (g : Game) : Game :=
  match g.state with
  | waiting => { g with state := playing }
  | playing => { g with bird := { g.bird with velocity := JUMP_FORCE } }
  | gameOver =>
      { g with bird := ⟨0, 0, 0⟩, score := 0, pipes := [], lastPipeTime := 0,
               state := waiting }

/-! ### Helper lemmas -/

/-- The per-pipe collision clause, characterised: a hit is exactly a strict
horizontal overlap together with the bird circle not fitting in the gap. -/
theorem pipeHit_iff (y : ℚ) (p : Pipe) :
    pipeHit y p = true ↔
      (p.x - PIPE_WIDTH / 2 < birdX + birdRadius ∧ p.x + PIPE_WIDTH / 2 > birdX - birdRadius)
      ∧ (y + birdRadius < p.gapY - PIPE_GAP / 2 ∨ y - birdRadius > p.gapY + PIPE_GAP / 2) := by
  unfold pipeHit
  split_ifs with h1 h2 <;> simp_all

/-! ### C1 -/

/-- C1, the claim as stated, refuted: at `avatarY = 225` (with the code's
fixed `birdRadius = 10` and no obstacles) the claimed bound test
`avatarY + radius > 230` holds, yet `checkCollision` reports no collision:
the code compares the bare `birdY` against ±230 without adding the radius. -/
theorem checkCollision_bound_cex :
    checkCollision 225 [] = false ∧ (225 : ℚ) + birdRadius > 230 := by
  constructor
  · norm_num [checkCollision]
  · norm_num [birdRadius, BIRD_SIZE]

/-- C1 (amended): `checkCollision` reports an out-of-bounds collision exactly
when `avatarY > 230` or `avatarY < -230`; the avatar radius is not added in
the bound test (the ±230 bound is itself the 10-unit inset from the ±240
world half-height).  Out of bounds forces a collision for any obstacle list,
and with no obstacles a collision holds iff out of bounds. -/
theorem checkCollision_bounds (y : ℚ) (ps : List Pipe) :
    ((y > 230 ∨ y < -230) → checkCollision y ps = true)
    ∧ (checkCollision y [] = true ↔ (y > 230 ∨ y < -230)) := by
  constructor
  · intro h
    simp [checkCollision, h]
  · constructor
    · intro h
      by_contra hc
      simp [checkCollision, hc] at h
    · intro h
      simp [checkCollision, h]

/-- Witness for `checkCollision_bounds` at `y = 235`, the spec's
ceiling-breach example: the hypothesis `235 > 230 ∨ 235 < -230` is discharged
and the collision fires. -/
theorem checkCollision_bounds_witness :
    checkCollision 235 [] = true :=
  (checkCollision_bounds 235 []).1 (Or.inl (by norm_num))

/-! ### C3 -/

/-- C3: for an in-bounds avatar, `checkCollision` reports a collision iff
some pipe both strictly overlaps the bird's horizontal span and fails to
admit the bird circle in its gap; in particular a non-overlapping pipe never
causes a collision. -/
theorem checkCollision_gap (y : ℚ) (ps : List Pipe)
    (h1 : y ≤ 230) (h2 : -230 ≤ y) :
    checkCollision y ps = true ↔
      ∃ p ∈ ps,
        (p.x - PIPE_WIDTH / 2 < birdX + birdRadius ∧ p.x + PIPE_WIDTH / 2 > birdX - birdRadius)
        ∧ (y + birdRadius < p.gapY - PIPE_GAP / 2 ∨ y - birdRadius > p.gapY + PIPE_GAP / 2) := by
  have hob : ¬(y > 230 ∨ y < -230) := by
    push_neg
    exact ⟨h1, h2⟩
  rw [checkCollision, if_neg hob, List.any_eq_true]
  constructor
  · rintro ⟨p, hp, hhit⟩
    exact ⟨p, hp, (pipeHit_iff y p).mp hhit⟩
  · rintro ⟨p, hp, hcond⟩
    exact ⟨p, hp, (pipeHit_iff y p).mpr hcond⟩

/-- Witness for `checkCollision_gap`, following the spec's example moved to
the code's fixed slot: a pipe at `x = -100` (overlapping the bird slot) with
`gapY = 0`, bird at `y = 100`, collides. -/
theorem checkCollision_gap_witness :
    checkCollision 100 [⟨-100, 0, false⟩] = true :=
  (checkCollision_gap 100 [⟨-100, 0, false⟩] (by norm_num) (by norm_num)).mpr
    ⟨⟨-100, 0, false⟩, by simp,
      ⟨by norm_num [PIPE_WIDTH, birdX, birdRadius, BIRD_SIZE, GAME_WIDTH],
       Or.inr (by norm_num [birdRadius, BIRD_SIZE, PIPE_GAP])⟩⟩

/-! ### C6 -/

/-- C6: on every tick `integrate` sets the velocity to
`min (velocity + GRAVITY) MAX_VELOCITY`, which therefore never exceeds
`MAX_VELOCITY`, and sets the rotation (tilt) to the clamp of
`velocity * 0.05` into `[-0.5, 0.5]`, which therefore always lies in that
interval, for every starting bird state. -/
theorem integrate_clamped (b : Bird) :
    (integrate b).velocity = min (b.velocity + GRAVITY) MAX_VELOCITY
    ∧ (integrate b).velocity ≤ MAX_VELOCITY
    ∧ (integrate b).rotation = max (-0.5) (min 0.5 ((integrate b).velocity * 0.05))
    ∧ -0.5 ≤ (integrate b).rotation ∧ (integrate b).rotation ≤ 0.5 := by
  refine ⟨rfl, min_le_right _ _, rfl, le_max_left _ _, ?_⟩
  exact max_le (by norm_num) (min_le_left _ _)

/-! ### Pipe-step helper lemmas -/

/-- A pipe is retired by the loop exactly when its advanced position is past
the left world edge minus the pipe width. -/
theorem stepPipe_eq_none_iff (p : Pipe) :
    stepPipe p = none ↔ p.x - PIPE_SPEED < -GAME_WIDTH / 2 - PIPE_WIDTH := by
  simp only [stepPipe]
  split_ifs with h1 h2 <;> simp_all

/-- Case analysis of a surviving pipe: it advanced by `PIPE_SPEED`, kept its
gap, and either it just flipped to passed (scoring 1) because it was unpassed
with its trailing edge strictly left of the bird slot, or nothing changed
(scoring 0). -/
theorem stepPipe_some_cases (p p' : Pipe) (k : ℕ)
    (h : stepPipe p = some (p', k)) :
    p'.x = p.x - PIPE_SPEED ∧ p'.gapY = p.gapY
    ∧ ((k = 1 ∧ p.passed = false ∧ p'.passed = true
        ∧ p'.x + PIPE_WIDTH / 2 < -GAME_WIDTH / 4)
       ∨ (k = 0 ∧ p'.passed = p.passed
          ∧ ¬(p.passed = false ∧ p'.x + PIPE_WIDTH / 2 < -GAME_WIDTH / 4))) := by
  simp only [stepPipe] at h
  split_ifs at h with h1 h2
  · obtain ⟨hp, hk⟩ := Prod.mk.injEq _ _ _ _ ▸ (Option.some.inj h)
    subst hk
    rw [← hp]
    exact ⟨rfl, rfl, Or.inl ⟨rfl, h2.1, rfl, h2.2⟩⟩
  · obtain ⟨hp, hk⟩ := Prod.mk.injEq _ _ _ _ ▸ (Option.some.inj h)
    subst hk
    rw [← hp]
    exact ⟨rfl, rfl, Or.inr ⟨rfl, rfl, h2⟩⟩

/-- A pipe already marked passed never scores again, over any number of ticks. -/
theorem runPipe_zero_of_passed (p : Pipe) (n : ℕ) (hp : p.passed = true) :
    runPipe p n = 0 := by
  induction n generalizing p with
  | zero => rfl
  | succ n ih =>
    cases hstep : stepPipe p with
    | none => simp [runPipe, hstep]
    | some pk =>
      obtain ⟨p', k⟩ := pk
      obtain ⟨-, -, hcase⟩ := stepPipe_some_cases p p' k hstep
      rcases hcase with ⟨-, hfalse, -, -⟩ | ⟨h0, hpp, -⟩
      · rw [hp] at hfalse
        cases hfalse
      · simp [runPipe, hstep, h0, ih p' (hpp.trans hp)]

/-- Over its whole remaining lifetime a pipe scores at most once. -/
theorem runPipe_le_one (p : Pipe) (n : ℕ) : runPipe p n ≤ 1 := by
  induction n generalizing p with
  | zero => exact Nat.zero_le 1
  | succ n ih =>
    cases hstep : stepPipe p with
    | none => simp [runPipe, hstep]
    | some pk =>
      obtain ⟨p', k⟩ := pk
      obtain ⟨-, -, hcase⟩ := stepPipe_some_cases p p' k hstep
      rcases hcase with ⟨h1, -, hp', -⟩ | ⟨h0, -, -⟩
      · simp [runPipe, hstep, h1, runPipe_zero_of_passed p' n hp']
      · simpa [runPipe, hstep, h0] using ih p'

/-! ### C5 -/

/-- C5: a pipe scores at most once over any number of further ticks; an
already-passed pipe never scores again; and a single tick scores 1 for a
surviving pipe exactly when its `passed` flag flips false→true, which happens
exactly when it was unpassed and its advanced trailing edge is strictly left
of the bird's slot.  (A retired pipe — `stepPipe p = none` — is gone and by
definition contributes no further increments.) -/
theorem pipe_passed_once (p : Pipe) (n : ℕ) :
    runPipe p n ≤ 1
    ∧ (p.passed = true → runPipe p n = 0)
    ∧ (∀ p' k, stepPipe p = some (p', k) →
        ((k = 1 ↔ p.passed = false ∧ p'.passed = true)
         ∧ (k = 1 ↔ p.passed = false ∧ p'.x + PIPE_WIDTH / 2 < birdX))) := by
  have hbx : birdX = -GAME_WIDTH / 4 := rfl
  refine ⟨runPipe_le_one p n, runPipe_zero_of_passed p n, fun p' k h => ?_⟩
  obtain ⟨-, -, hcase⟩ := stepPipe_some_cases p p' k h
  rw [hbx]
  rcases hcase with ⟨h1, hpf, hpt, hcross⟩ | ⟨h0, hpp, hnot⟩
  · exact ⟨⟨fun _ => ⟨hpf, hpt⟩, fun _ => h1⟩, ⟨fun _ => ⟨hpf, hcross⟩, fun _ => h1⟩⟩
  · constructor
    · constructor
      · intro hk
        rw [h0] at hk
        cases hk
      · rintro ⟨hpf, hpt⟩
        rw [hpp, hpf] at hpt
        cases hpt
    · constructor
      · intro hk
        rw [h0] at hk
        cases hk
      · intro hc
        exact absurd hc hnot

/-- Witness for `pipe_passed_once`: the pipe at `x = -124` advances to
`x = -125.5`, crossing the pass threshold, and the step theorem's discharged
hypothesis yields the flip equivalence at increment 1. -/
theorem pipe_passed_once_witness :
    (1 : ℕ) = 1 ↔
      (Pipe.passed ⟨-124, 0, false⟩ = false ∧ Pipe.passed ⟨-251/2, 0, true⟩ = true) :=
  ((pipe_passed_once ⟨-124, 0, false⟩ 3).2.2 ⟨-251/2, 0, true⟩ 1
    (by norm_num [stepPipe, PIPE_SPEED, GAME_WIDTH, PIPE_WIDTH])).1

/-! ### Staged decomposition of the pipe loop (C9 helpers) -/

/-- The single-pass source loop computes exactly the staged composition
advance, then retire, then mark-passed (the per-pipe interleaving touches
each pipe independently, so the aggregate results coincide). -/
theorem stepPipes_eq_staged (ps : List Pipe) :
    stepPipes ps = markPassed (retirePipes (advancePipes ps)) := by
  induction ps with
  | nil => rfl
  | cons p ps ih =>
    have hadv : advancePipes (p :: ps)
        = ⟨p.x - PIPE_SPEED, p.gapY, p.passed⟩ :: advancePipes ps := rfl
    by_cases h1 : p.x - PIPE_SPEED < -GAME_WIDTH / 2 - PIPE_WIDTH
    · have hstep : stepPipe p = none := (stepPipe_eq_none_iff p).mpr h1
      have hret : retirePipes (advancePipes (p :: ps)) = retirePipes (advancePipes ps) := by
        rw [hadv]
        simp [retirePipes, List.filter_cons, h1]
      rw [hret, ← ih]
      simp [stepPipes, hstep]
    · have hret : retirePipes (advancePipes (p :: ps))
          = ⟨p.x - PIPE_SPEED, p.gapY, p.passed⟩ :: retirePipes (advancePipes ps) := by
        rw [hadv]
        simp [retirePipes, List.filter_cons, h1]
      rw [hret]
      have hmp : markPassed (⟨p.x - PIPE_SPEED, p.gapY, p.passed⟩ :: retirePipes (advancePipes ps))
          = ((markPassedOne ⟨p.x - PIPE_SPEED, p.gapY, p.passed⟩).1
              :: (markPassed (retirePipes (advancePipes ps))).1,
             (markPassedOne ⟨p.x - PIPE_SPEED, p.gapY, p.passed⟩).2
              + (markPassed (retirePipes (advancePipes ps))).2) := rfl
      rw [hmp, ← ih]
      by_cases h2 : p.passed = false ∧ p.x - PIPE_SPEED + PIPE_WIDTH / 2 < -GAME_WIDTH / 4
      · have hstep : stepPipe p = some (⟨p.x - PIPE_SPEED, p.gapY, true⟩, 1) := by
          simp only [stepPipe]
          rw [if_neg h1, if_pos h2]
        have hone : markPassedOne ⟨p.x - PIPE_SPEED, p.gapY, p.passed⟩
            = (⟨p.x - PIPE_SPEED, p.gapY, true⟩, 1) := by
          simp only [markPassedOne]
          rw [if_pos h2]
        rw [hone]
        simp [stepPipes, hstep]
      · have hstep : stepPipe p = some (⟨p.x - PIPE_SPEED, p.gapY, p.passed⟩, 0) := by
          simp only [stepPipe]
          rw [if_neg h1, if_neg h2]
        have hone : markPassedOne ⟨p.x - PIPE_SPEED, p.gapY, p.passed⟩
            = (⟨p.x - PIPE_SPEED, p.gapY, p.passed⟩, 0) := by
          simp only [markPassedOne]
          rw [if_neg h2]
        rw [hone]
        simp [stepPipes, hstep]

/-- The single-pass loop establishes the pass invariant on its output: every
surviving pipe whose trailing edge is strictly left of the bird's slot is
marked passed. -/
theorem stepPipes_establishes_inv (ps : List Pipe) : pipesInv (stepPipes ps).1 := by
  induction ps with
  | nil =>
    intro q hq
    cases hq
  | cons p ps ih =>
    intro q hq hcond
    simp only [stepPipes] at hq
    cases hstep : stepPipe p with
    | none =>
      rw [hstep] at hq
      exact ih q hq hcond
    | some pk =>
      obtain ⟨p', k⟩ := pk
      rw [hstep] at hq
      rcases List.mem_cons.mp hq with hq | hq
      · subst hq
        obtain ⟨-, -, hcase⟩ := stepPipe_some_cases p q k hstep
        rcases hcase with ⟨-, -, hpt, -⟩ | ⟨-, hpp, hnot⟩
        · exact hpt
        · rcases Bool.eq_false_or_eq_true p.passed with hpt | hpf
          · exact hpp.trans hpt
          · exact absurd ⟨hpf, hcond⟩ hnot
      · exact ih q hq hcond

/-- Spawning a pipe at the spawn position preserves the pass invariant. -/
theorem pipesInv_spawn (ps : List Pipe) (g : ℚ) (h : pipesInv ps) :
    pipesInv (ps ++ [⟨GAME_WIDTH / 2 + PIPE_WIDTH, g, false⟩]) := by
  intro q hq hcond
  rcases List.mem_append.mp hq with hq | hq
  · exact h q hq hcond
  · rcases List.mem_singleton.mp hq with rfl
    norm_num [GAME_WIDTH, PIPE_WIDTH] at hcond

/-- Every reachable pipe list satisfies the pass invariant. -/
theorem reachable_pipesInv {ps : List Pipe} (h : ReachablePipes ps) : pipesInv ps := by
  induction h with
  | init =>
    intro q hq
    cases hq
  | step _ _ => exact stepPipes_establishes_inv _
  | spawn g _ ih => exact pipesInv_spawn _ g ih

/-- A pipe spawned at the right spawn position is horizontally far from the
bird's slot, so appending it leaves the collision verdict unchanged. -/
theorem checkCollision_spawn (y g : ℚ) (ps : List Pipe) :
    checkCollision y (ps ++ [⟨GAME_WIDTH / 2 + PIPE_WIDTH, g, false⟩])
      = checkCollision y ps := by
  unfold checkCollision
  split_ifs with h
  · rfl
  · rw [List.any_append]
    have hmiss : pipeHit y ⟨GAME_WIDTH / 2 + PIPE_WIDTH, g, false⟩ = false := by
      unfold pipeHit
      rw [if_neg]
      rintro ⟨c1, -⟩
      norm_num [GAME_WIDTH, PIPE_WIDTH, birdX, birdRadius, BIRD_SIZE] at c1
    simp [hmiss]

/-! ### C9 -/

/-- C9: the single-pass pipe loop equals the staged order advance, then
retire, then mark-passed (with the spawn appended afterwards); on every
reachable pipe list the pass invariant holds, so any pipe retired this tick
(`stepPipe p = none`) was already marked passed — retirement never skips a
pass event; and appending the pipe spawned this tick never changes this
tick's collision verdict. -/
theorem tick_pipe_ordering (ps : List Pipe) :
    stepPipes ps = markPassed (retirePipes (advancePipes ps))
    ∧ (ReachablePipes ps →
        pipesInv ps ∧ ∀ p ∈ ps, stepPipe p = none → p.passed = true)
    ∧ ∀ (y gapY : ℚ),
        checkCollision y (ps ++ [⟨GAME_WIDTH / 2 + PIPE_WIDTH, gapY, false⟩])
          = checkCollision y ps := by
  refine ⟨stepPipes_eq_staged ps, ?_, fun y g => checkCollision_spawn y g ps⟩
  intro h
  have hinv := reachable_pipesInv h
  refine ⟨hinv, fun p hp hnone => ?_⟩
  have hx : p.x - PIPE_SPEED < -GAME_WIDTH / 2 - PIPE_WIDTH :=
    (stepPipe_eq_none_iff p).mp hnone
  apply hinv p hp
  norm_num [GAME_WIDTH, PIPE_WIDTH, PIPE_SPEED] at hx ⊢
  linarith

/-- Witness for `tick_pipe_ordering`: the staged equality on a concrete list,
the invariant on the concrete reachable list obtained by one spawn from the
initial empty list (discharging the reachability hypothesis), and the
spawn-does-not-collide equality at concrete values. -/
theorem tick_pipe_ordering_witness :
    stepPipes [⟨-124, 5, false⟩]
        = markPassed (retirePipes (advancePipes [⟨-124, 5, false⟩]))
    ∧ pipesInv [⟨GAME_WIDTH / 2 + PIPE_WIDTH, 0, false⟩]
    ∧ checkCollision 100 ([⟨-100, 0, false⟩] ++ [⟨GAME_WIDTH / 2 + PIPE_WIDTH, 7, false⟩])
        = checkCollision 100 [⟨-100, 0, false⟩] :=
  ⟨(tick_pipe_ordering [⟨-124, 5, false⟩]).1,
   ((tick_pipe_ordering [⟨GAME_WIDTH / 2 + PIPE_WIDTH, 0, false⟩]).2.1
      (by simpa using ReachablePipes.spawn 0 ReachablePipes.init)).1,
   (tick_pipe_ordering [⟨-100, 0, false⟩]).2.2 100 7⟩

/-! ### C7 -/

/-- C7, the claim as stated, refuted: a spawn does occur at
`now = 3001, lastSpawnTime = 0`, but the created pipe's horizontal position
is `GAME_WIDTH / 2 + PIPE_WIDTH = 250`, which is not the right world edge
`GAME_WIDTH / 2 = 200` — the pipe spawns one pipe-width beyond it. -/
theorem trySpawn_edge_cex :
    trySpawn 3001 0 (1/2) = some ⟨GAME_WIDTH / 2 + PIPE_WIDTH, 0, false⟩
    ∧ GAME_WIDTH / 2 + PIPE_WIDTH ≠ rightWorldEdge := by
  constructor
  · norm_num [trySpawn, Pipe.mk.injEq]
  · norm_num [GAME_WIDTH, PIPE_WIDTH, rightWorldEdge]

/-- C7 (amended): `trySpawn` returns a pipe exactly when
`now - lastSpawnTime > 3000`, and the returned pipe's horizontal position is
the right world edge plus the pipe width (`250`); otherwise no pipe is
created. -/
theorem trySpawn_spec (now last r : ℚ) :
    ((trySpawn now last r).isSome = true ↔ now - last > 3000)
    ∧ ∀ p, trySpawn now last r = some p → p.x = rightWorldEdge + PIPE_WIDTH := by
  unfold trySpawn
  split_ifs with h
  · refine ⟨by simpa using h, fun p hp => ?_⟩
    rw [← Option.some.inj hp]
    simp [rightWorldEdge]
  · refine ⟨by simpa using h, fun p hp => ?_⟩
    cases hp

/-- Witness for `trySpawn_spec`: at `now = 3001`, `lastSpawnTime = 0` the
spawn-interval hypothesis is discharged and a pipe is produced. -/
theorem trySpawn_spec_witness :
    (trySpawn 3001 0 (1/2)).isSome = true :=
  (trySpawn_spec 3001 0 (1/2)).1.mpr (by norm_num)

/-! ### C8 -/

/-- C8: for every value `r` of the random source (`Math.random()` yields
`0 ≤ r < 1`), any pipe returned by `trySpawn` has its gap center inside
`[-100, 100]`. -/
theorem trySpawn_gap_bounded (now last r : ℚ) (h0 : 0 ≤ r) (h1 : r < 1) :
    ∀ p, trySpawn now last r = some p → -100 ≤ p.gapY ∧ p.gapY ≤ 100 := by
  unfold trySpawn
  split_ifs with h
  · intro p hp
    rw [← Option.some.inj hp]
    constructor
    · show -100 ≤ r * 200 - 100
      nlinarith
    · show r * 200 - 100 ≤ 100
      nlinarith
  · intro p hp
    cases hp

/-- Witness for `trySpawn_gap_bounded` at `r = 1/2`: the randomness bounds
and the spawn equation are discharged at concrete values, giving the gap
bounds for the concrete spawned pipe. -/
theorem trySpawn_gap_bounded_witness :
    -100 ≤ (Pipe.mk (GAME_WIDTH / 2 + PIPE_WIDTH) 0 false).gapY
    ∧ (Pipe.mk (GAME_WIDTH / 2 + PIPE_WIDTH) 0 false).gapY ≤ 100 :=
  trySpawn_gap_bounded 3001 0 (1/2) (by norm_num) (by norm_num)
    (Pipe.mk (GAME_WIDTH / 2 + PIPE_WIDTH) 0 false)
    (by norm_num [trySpawn, Pipe.mk.injEq])

/-! ### C4 -/

/-- C4: `handleJump` is a total function of the captured state.  From
`waiting` it only sets the state to `playing` (score and bird untouched — the
captured `gameState` keeps the jump branch from firing on the same tap); from
`playing` it sets the bird's velocity to `JUMP_FORCE`; from `gameOver` it
resets the bird, clears the score and the pipes, zeroes the spawn timer and
returns to `waiting` — never directly to `playing`. -/
theorem handleJump_state_machine (g : Game) :
    (g.state = waiting → handleJump g = { g with state := playing })
    ∧ (g.state = playing →
        handleJump g = { g with bird := { g.bird with velocity := JUMP_FORCE } })
    ∧ (g.state = gameOver →
        handleJump g = { g with bird := ⟨0, 0, 0⟩, score := 0, pipes := [],
                                lastPipeTime := 0, state := waiting }
        ∧ (handleJump g).state ≠ playing) := by
  obtain ⟨b, s, sc, hs, ps, lpt⟩ := g
  cases s <;> simp [handleJump]

/-- Witness for `handleJump_state_machine`: from the initial waiting state
(score 0) an action yields the playing state with everything else unchanged,
the waiting-state hypothesis discharged by `rfl`. -/
theorem handleJump_state_machine_witness :
    handleJump initialGame = { initialGame with state := playing } :=
  (handleJump_state_machine initialGame).1 rfl

/-! ### C2 -/

/-- C2, divergence witnessed: start playing with score 0, high score 0, the
bird at `y = 230` falling at terminal velocity, and an unpassed pipe at
`x = -124`.  On this tick the pipe's trailing edge crosses the bird slot
(score becomes 1) and the bird breaches the ceiling (state becomes
`gameOver`), but the high score is computed from the render-time captured
`score = 0`, so it stays 0 — not `max 0 1 = 1` as the claim (and the spec's
`highScore = max(highScore, score)` after `score += markPassed`) requires.
The game-over overlay then shows a score strictly above the high score. -/
theorem highScore_misses_pass_tick :
    (gameLoop ⟨⟨230, 6, 0⟩, playing, 0, 0, [⟨-124, 0, false⟩], 0⟩ 0 0).state = gameOver
    ∧ (gameLoop ⟨⟨230, 6, 0⟩, playing, 0, 0, [⟨-124, 0, false⟩], 0⟩ 0 0).score = 1
    ∧ (gameLoop ⟨⟨230, 6, 0⟩, playing, 0, 0, [⟨-124, 0, false⟩], 0⟩ 0 0).highScore = 0
    ∧ (gameLoop ⟨⟨230, 6, 0⟩, playing, 0, 0, [⟨-124, 0, false⟩], 0⟩ 0 0).highScore
        ≠ max 0 (gameLoop ⟨⟨230, 6, 0⟩, playing, 0, 0, [⟨-124, 0, false⟩], 0⟩ 0 0).score := by
  norm_num [gameLoop, integrate, stepPipes, stepPipe, trySpawn, checkCollision, pipeHit,
    GRAVITY, MAX_VELOCITY, PIPE_SPEED, GAME_WIDTH, PIPE_WIDTH, PIPE_GAP,
    birdX, birdRadius, BIRD_SIZE, min_def, max_def]

/-! ### C10 -/

/-- C10: the spawn timer starts at 0 (`useRef(0)`), an action during
`gameOver` resets it to 0 (returning to `waiting`), and on any playing tick
with `lastPipeTime = 0` and clock time above 3000 ms the spawn condition
already holds, so a pipe is spawned immediately on that first tick (one more
pipe than the surviving ones) and the timer is set to `now`. -/
theorem first_tick_spawns (g : Game) (now r : ℚ) :
    initialGame.lastPipeTime = 0
    ∧ (g.state = gameOver →
        (handleJump g).lastPipeTime = 0 ∧ (handleJump g).state = waiting)
    ∧ (g.state = playing → g.lastPipeTime = 0 → now > 3000 →
        (gameLoop g now r).pipes.length = (stepPipes g.pipes).1.length + 1
        ∧ (gameLoop g now r).lastPipeTime = now) := by
  refine ⟨rfl, ?_, ?_⟩
  · intro h
    obtain ⟨b, s, sc, hs, ps, lpt⟩ := g
    cases s <;> simp_all [handleJump]
  · intro hplay hlast hnow
    have hs : trySpawn now g.lastPipeTime r
        = some ⟨GAME_WIDTH / 2 + PIPE_WIDTH, r * 200 - 100, false⟩ := by
      unfold trySpawn
      rw [hlast, if_pos (by linarith)]
    simp [gameLoop, hplay, hs]

/-- Witness for `first_tick_spawns`: with the initial state switched to
playing (timer still 0) and `now = 3001`, the hypotheses are discharged and
the very first tick spawns a pipe and stamps the timer. -/
theorem first_tick_spawns_witness :
    (gameLoop ⟨⟨0, 0, 0⟩, playing, 0, 0, [], 0⟩ 3001 0).pipes.length
        = (stepPipes ([] : List Pipe)).1.length + 1
    ∧ (gameLoop ⟨⟨0, 0, 0⟩, playing, 0, 0, [], 0⟩ 3001 0).lastPipeTime = 3001 :=
  (first_tick_spawns ⟨⟨0, 0, 0⟩, playing, 0, 0, [], 0⟩ 3001 0).2.2 rfl rfl (by norm_num)
